import Mathlib

/-!
Verification of the request-handling layer of a Flask + MySQL CRUD API
(`main.py`): businesses and reviews with application-level cascade delete,
one-review-per-(user, business) conflict detection, pagination, and
response formatting.

The embedding models each Flask handler as a pure function from the request
data and a `Store` (the two database tables plus the AUTO_INCREMENT
counters) to an `HttpResponse` (and the updated `Store` for mutating
handlers).  SQL statements are modelled by the corresponding list
operations: `SELECT ... WHERE` / `fetchone` is `List.find?`,
`DELETE ... WHERE` is `List.filter`, `UPDATE ... WHERE` maps the matching
rows, `LIMIT`/`OFFSET` is `take`/`drop` on the table in natural row order,
and `COUNT(*)` is `List.length`.  Statement execution persists immediately:
the engine configuration lives in `connect_connector.py`, which is outside
the handler file, and the specification states that consistency is
delegated to statement-level guarantees of the store.
-/

/-- A JSON value as produced by `jsonify`: integers, strings, `null`,
arrays and objects (objects keep field order, as Python dicts do). -/
inductive Value where
  | int (n : Int)
  | str (s : String)
  | null
  | arr (elems : List Value)
  | obj (fields : List (String × Value))

/-- Look a key up in a JSON object (first occurrence, like a Python dict
read); `none` on non-objects or absent keys. -/
def Value.lookup (v : Value) (k : String) : Option Value :=
  match v with
  | .obj fields => (fields.find? (fun p => p.1 == k)).map (fun p => p.2)
  | _ => none

/-- An HTTP response: status code and JSON body.  Flask's `return '', 204`
is modelled as body `Value.str ""`. -/
structure HttpResponse where
  status : Nat
  body : Value

/-- The error body `{'Error': msg}` used by every error return. -/
def errBody (msg : String) : Value := .obj [("Error", .str msg)]

/-- A row of the `business` table.  Per the DDL, `id` and `owner_id` are
INT columns and `zip_code` is `VARCHAR(10)`, so a fetched row carries the
zip code as a string. -/
structure BusinessRow where
  id : Int
  owner_id : Int
  name : String
  street_address : String
  city : String
  state : String
  zip_code : String
  deriving DecidableEq

/-- A row of the `review` table: `id`, `user_id`, `business_id`, `stars`
are INT columns, `review_text` is a nullable TEXT column. -/
structure ReviewRow where
  id : Int
  user_id : Int
  business_id : Int
  stars : Int
  review_text : Option String
  deriving DecidableEq

/-- The database state: both tables in natural row order, plus the
AUTO_INCREMENT counters that produce `lastrowid` / `LAST_INSERT_ID()`. -/
structure Store where
  businesses : List BusinessRow
  reviews : List ReviewRow
  nextBusinessId : Int
  nextReviewId : Int
  deriving DecidableEq

/-- Accumulate decimal digits left to right, as Python's `int` does;
`none` on a non-digit. -/
def parseDigitsAux : List Char → Nat → Option Nat
  | [], acc => some acc
  | c :: rest, acc =>
    if c.isDigit then parseDigitsAux rest (acc * 10 + (c.toNat - '0'.toNat))
    else none

/-- A nonempty all-digit string read as a natural number. -/
def parseDigits (cs : List Char) : Option Nat :=
  if cs.isEmpty then none else parseDigitsAux cs 0

/-- Models Python `int(...)` applied to a query/path string: an optional
sign followed by decimal digits (whitespace trimming, underscore
separators and non-ASCII digits of Python's `int` are not exercised by
any route and are not modelled). `none` models the `ValueError` branch. -/
def pyParseInt (s : String) : Option Int :=
  match s.data with
  | '-' :: rest => (parseDigits rest).map (fun n => -(n : Int))
  | '+' :: rest => (parseDigits rest).map (fun n => (n : Int))
  | cs => (parseDigits cs).map (fun n => (n : Int))

/-- Models `int(request.args.get(name, default))`: the integer default is
used when the parameter is absent, otherwise the raw string is parsed. -/
def argInt (arg : Option String) (default : Int) : Option Int :=
  match arg with
  | none => some default
  | some s => pyParseInt s

/-- Models Python `int(...)` on an integer-valued VARCHAR cell.  Every zip
code stored by the handlers is the decimal rendering of an integer request
field, so the parse always succeeds on reachable rows; the `ValueError`
on other strings is not modelled. -/
def pyIntOfVarchar (s : String) : Int := (pyParseInt s).getD 0

/-- Models `str.rstrip('/')` as applied to `request.host_url`. -/
def rstripSlash (s : String) : String := s.dropRightWhile (fun c => c == '/')

/-- `format_business_response`: coerce the INT columns and the VARCHAR zip
code to integers, keep the string columns, in source field order. -/
def format_business_response (b : BusinessRow) : List (String × Value) :=
  [ ("id", .int b.id),
    ("owner_id", .int b.owner_id),
    ("name", .str b.name),
    ("street_address", .str b.street_address),
    ("city", .str b.city),
    ("state", .str b.state),
    ("zip_code", .int (pyIntOfVarchar b.zip_code)) ]

/-- `format_review_response`: integer coercions, the parent business
rendered as an absolute URL instead of a bare id, `review.get('review_text')`
(possibly `None`), and a `self` link; `base_url` is
`request.host_url.rstrip('/')`. -/
def format_review_response (host : String) (r : ReviewRow) : List (String × Value) :=
  [ ("id", .int r.id),
    ("user_id", .int r.user_id),
    ("business", .str (rstripSlash host ++ "/businesses/" ++ toString r.business_id)),
    ("stars", .int r.stars),
    ("review_text", match r.review_text with | some t => .str t | none => .null),
    ("self", .str (rstripSlash host ++ "/reviews/" ++ toString r.id)) ]

/-- A `POST /businesses` or `PUT /businesses/{id}` JSON body: each of the
six fields is present (`some`) or absent (`none`).  Numeric fields are
sent as JSON numbers. -/
structure BusinessBody where
  owner_id : Option Int
  name : Option String
  street_address : Option String
  city : Option String
  state : Option String
  zip_code : Option Int

/-- `create_business` (`POST /businesses`): reject with 400 unless all six
required fields are present; otherwise insert the row (the new id is the
AUTO_INCREMENT counter, the zip code is stored in its VARCHAR column),
re-fetch it by `lastrowid`, and return the formatted business with a
`self` link built from `request.host_url` and HTTP 201; a failed re-fetch
would give 500. -/
def create_business (host : String) (data : BusinessBody) (s : Store) :
    HttpResponse × Store :=
  match data.owner_id, data.name, data.street_address, data.city, data.state,
      data.zip_code with
  | some oid, some nm, some sa, some ci, some st, some z =>
    let row : BusinessRow :=
      { id := s.nextBusinessId, owner_id := oid, name := nm,
        street_address := sa, city := ci, state := st, zip_code := toString z }
    let s' : Store :=
      { s with businesses := s.businesses ++ [row],
               nextBusinessId := s.nextBusinessId + 1 }
    match s'.businesses.find? (fun b => b.id == s.nextBusinessId) with
    | none => (⟨500, errBody "Failed to fetch created business"⟩, s')
    | some b =>
      (⟨201, .obj (format_business_response b ++
          [("self", .str (host ++ "businesses/" ++ toString b.id))])⟩, s')
  | _, _, _, _, _, _ =>
    (⟨400, errBody "The request body is missing at least one of the required attributes"⟩, s)

/-- `get_business_by_id` (`GET /businesses/{id}`, integer route converter):
404 when no row matches, otherwise the formatted business plus a `self`
link built from the stripped host URL. -/
def get_business_by_id (host : String) (business_id : Int) (s : Store) :
    HttpResponse :=
  match s.businesses.find? (fun b => b.id == business_id) with
  | none => ⟨404, errBody "No business with this business_id exists"⟩
  | some b =>
    ⟨200, .obj (format_business_response b ++
        [("self", .str (rstripSlash host ++ "/businesses/" ++ toString b.id))])⟩

/-- The HTTP 500 Flask produces when an unhandled exception escapes a
handler; the body stands for Flask's default HTML error page (not a JSON
object). -/
def internalServerError : HttpResponse := ⟨500, .str "Internal Server Error"⟩

/-- `get_businesses` (`GET /businesses?limit&offset`): limit defaults to 3
and offset to 0; a parse failure of either gives 400; a negative parsed
limit or offset is passed into `LIMIT :limit OFFSET :offset`, which MySQL
rejects, so the handler dies with an unhandled exception (HTTP 500);
otherwise one page of rows (`LIMIT`/`OFFSET` in natural row order) is
formatted into an `entries` envelope, and a `next` URL advancing offset by
limit is added exactly when `offset + limit < COUNT(*)`; HTTP 200 on every
nonnegative page, even an empty one. -/
def get_businesses (host : String) (limitArg offsetArg : Option String)
    (s : Store) : HttpResponse :=
  match argInt limitArg 3, argInt offsetArg 0 with
  | some limit, some offset =>
    if limit < 0 ∨ offset < 0 then internalServerError
    else
      let page := (s.businesses.drop offset.toNat).take limit.toNat
      let total : Int := s.businesses.length
      let entries := page.map (fun b =>
        Value.obj (format_business_response b ++
          [("self", .str (host ++ "businesses/" ++ toString b.id))]))
      if offset + limit < total then
        ⟨200, .obj [("entries", .arr entries),
          ("next", .str (host ++ "businesses?offset=" ++ toString (offset + limit) ++
            "&limit=" ++ toString limit))]⟩
      else
        ⟨200, .obj [("entries", .arr entries)]⟩
  | _, _ => ⟨400, errBody "Invalid limit or offset"⟩

/-- `edit_business` (`PUT /businesses/{id}`): full-replace semantics — all
six fields required, else 400; 404 when the id matches no row; otherwise
`UPDATE` every matching row (the primary key makes that one row),
re-fetch, and return the formatted business with `self`, HTTP 200. -/
def edit_business (host : String) (business_id : Int) (data : BusinessBody)
    (s : Store) : HttpResponse × Store :=
  match data.owner_id, data.name, data.street_address, data.city, data.state,
      data.zip_code with
  | some oid, some nm, some sa, some ci, some st, some z =>
    match s.businesses.find? (fun b => b.id == business_id) with
    | none => (⟨404, errBody "No business with this business_id exists"⟩, s)
    | some _ =>
      let s' : Store :=
        { s with businesses := s.businesses.map (fun b =>
            if b.id == business_id then
              { id := b.id, owner_id := oid, name := nm, street_address := sa,
                city := ci, state := st, zip_code := toString z }
            else b) }
      match s'.businesses.find? (fun b => b.id == business_id) with
      | none => (⟨404, errBody "No business with this business_id exists"⟩, s')
      | some b =>
        (⟨200, .obj (format_business_response b ++
            [("self", .str (rstripSlash host ++ "/businesses/" ++ toString b.id))])⟩, s')
  | _, _, _, _, _, _ =>
    (⟨400, errBody "The request body is missing at least one of the required attributes"⟩, s)

/-- `delete_business` (`DELETE /businesses/{id}`): 404 when the business is
absent; otherwise delete every review referencing it, then the business
itself (the application-level cascade), and return an empty body with
HTTP 204. -/
def delete_business (business_id : Int) (s : Store) : HttpResponse × Store :=
  match s.businesses.find? (fun b => b.id == business_id) with
  | none => (⟨404, errBody "No business with this business_id exists"⟩, s)
  | some _ =>
    let s' : Store :=
      { s with
        reviews := s.reviews.filter (fun r => !(r.business_id == business_id)),
        businesses := s.businesses.filter (fun b => !(b.id == business_id)) }
    (⟨204, .str ""⟩, s')

/-- The raw `dict(row)` of a business row as `list_owner_businesses` builds
it: INT columns come back as integers, but the `VARCHAR(10)` zip code
comes back as the stored string — no `format_business_response` call, so
no integer coercion. -/
def rawBusinessDict (b : BusinessRow) : List (String × Value) :=
  [ ("id", .int b.id),
    ("owner_id", .int b.owner_id),
    ("name", .str b.name),
    ("street_address", .str b.street_address),
    ("city", .str b.city),
    ("state", .str b.state),
    ("zip_code", .str b.zip_code) ]

/-- `list_owner_businesses` (`GET /owners/{owner_id}/businesses`): all rows
with the owner id, each as the raw row dict plus a `self` link, returned
as a bare JSON array with HTTP 200. -/
def list_owner_businesses (host : String) (owner_id : Int) (s : Store) :
    HttpResponse :=
  ⟨200, .arr ((s.businesses.filter (fun b => b.owner_id == owner_id)).map
    (fun b => Value.obj (rawBusinessDict b ++
      [("self", .str (rstripSlash host ++ "/businesses/" ++ toString b.id))])))⟩

/-- A `POST /reviews` JSON body: the three required fields present or
absent; `review_text` distinguishes absent (`none`) from an explicit JSON
`null` (`some none`) — `data.get('review_text')` collapses both to `None`. -/
structure ReviewBody where
  user_id : Option Int
  business_id : Option Int
  stars : Option Int
  review_text : Option (Option String)

/-- `create_review` (`POST /reviews`): 400 unless `user_id`, `business_id`
and `stars` are all present; 404 when the referenced business does not
exist; 409 when a review by that user for that business already exists;
otherwise insert the review (id from AUTO_INCREMENT), re-fetch it by
`LAST_INSERT_ID()`, and return it formatted with HTTP 201. -/
def create_review (host : String) (data : ReviewBody) (s : Store) :
    HttpResponse × Store :=
  match data.user_id, data.business_id, data.stars with
  | some uid, some bid, some stars =>
    match s.businesses.find? (fun b => b.id == bid) with
    | none => (⟨404, errBody "No business with this business_id exists"⟩, s)
    | some _ =>
      match s.reviews.find? (fun r => r.user_id == uid && r.business_id == bid) with
      | some _ =>
        (⟨409, errBody "You have already submitted a review for this business. You can update your previous review, or delete it and submit a new review"⟩, s)
      | none =>
        let row : ReviewRow :=
          { id := s.nextReviewId, user_id := uid, business_id := bid,
            stars := stars, review_text := data.review_text.join }
        let s' : Store :=
          { s with reviews := s.reviews ++ [row],
                   nextReviewId := s.nextReviewId + 1 }
        match s'.reviews.find? (fun r => r.id == s.nextReviewId) with
        | none => (⟨201, .obj []⟩, s')
        | some newReview =>
          (⟨201, .obj (format_review_response host newReview)⟩, s')
  | _, _, _ =>
    (⟨400, errBody "The request body is missing at least one of the required attributes"⟩, s)

/-- `get_review` (`GET /reviews/{id}`, string route parameter): a path id
that fails `int(...)` returns the error body with HTTP 200 (the observed
reference behaviour); a parsed id matching no row gives 404; otherwise the
formatted review with 200. -/
def get_review (host : String) (review_id : String) (s : Store) : HttpResponse :=
  match pyParseInt review_id with
  | none => ⟨200, errBody "review_id must be an integer"⟩
  | some rid =>
    match s.reviews.find? (fun r => r.id == rid) with
    | none => ⟨404, errBody "No review with this review_id exists"⟩
    | some r => ⟨200, .obj (format_review_response host r)⟩

/-- A `PUT /reviews/{id}` JSON body: each field is absent (`none`),
present with an explicit JSON `null` (`some none`), or present with a
value (`some (some v)`). -/
structure ReviewPatchBody where
  stars : Option (Option Int)
  review_text : Option (Option String)

/-- One review row after `UPDATE review SET stars = COALESCE(:stars, stars),
review_text = COALESCE(:review_text, review_text)`: a NULL parameter (the
field absent from the body or sent as JSON `null`) keeps the stored value. -/
def coalesceUpdate (body : ReviewPatchBody) (r : ReviewRow) : ReviewRow :=
  { r with
    stars := (body.stars.join).getD r.stars,
    review_text :=
      match body.review_text.join with
      | some t => some t
      | none => r.review_text }

/-- `edit_review` (`PUT /reviews/{id}`): 400 when neither `stars` nor
`review_text` appears in the body; 404 when the id matches no row;
otherwise apply the coalesce-style `UPDATE` to the matching rows, re-fetch,
and return the formatted review with HTTP 200. -/
def edit_review (host : String) (review_id : Int) (body : ReviewPatchBody)
    (s : Store) : HttpResponse × Store :=
  if body.stars.isNone && body.review_text.isNone then
    (⟨400, errBody "The request body is missing at least one of the required attributes"⟩, s)
  else
    match s.reviews.find? (fun r => r.id == review_id) with
    | none => (⟨404, errBody "No review with this review_id exists"⟩, s)
    | some _ =>
      let s' : Store :=
        { s with reviews := s.reviews.map (fun r =>
            if r.id == review_id then coalesceUpdate body r else r) }
      match s'.reviews.find? (fun r => r.id == review_id) with
      | none => (⟨404, errBody "No review with this review_id exists"⟩, s')
      | some updated =>
        (⟨200, .obj (format_review_response host updated)⟩, s')

/-- `delete_review` (`DELETE /reviews/{id}`): 404 when the id matches no
row; otherwise `DELETE` the matching rows and return an empty body with
HTTP 204. -/
def delete_review (review_id : Int) (s : Store) : HttpResponse × Store :=
  match s.reviews.find? (fun r => r.id == review_id) with
  | none => (⟨404, errBody "No review with this review_id exists"⟩, s)
  | some _ =>
    (⟨204, .str ""⟩,
      { s with reviews := s.reviews.filter (fun r => !(r.id == review_id)) })

/-! ### Helper definitions for stating claims -/

/-- The `zip_code` field of a response body: for array bodies, the first
entry's field; for object bodies, the object's field. -/
def responseZip (r : HttpResponse) : Option Value :=
  match r.body with
  | .arr (e :: _) => e.lookup "zip_code"
  | b => b.lookup "zip_code"

/-- Whether the `zip_code` field of a response is a JSON integer. -/
def responseZipIsInt (r : HttpResponse) : Bool :=
  match responseZip r with
  | some (.int _) => true
  | _ => false

/-- Whether a JSON object's `zip_code` field is a JSON integer. -/
def entryZipIsInt (v : Value) : Bool :=
  match v.lookup "zip_code" with
  | some (.int _) => true
  | _ => false

/-- Whether a JSON object's `zip_code` field is a JSON string. -/
def entryZipIsStr (v : Value) : Bool :=
  match v.lookup "zip_code" with
  | some (.str _) => true
  | _ => false

/-- The list under the `entries` key of a response body. -/
def bodyEntries (r : HttpResponse) : List Value :=
  match r.body.lookup "entries" with
  | some (.arr es) => es
  | _ => []

/-- The elements of an array response body. -/
def arrElems (r : HttpResponse) : List Value :=
  match r.body with
  | .arr es => es
  | _ => []

/-! ### Helper lemmas -/

/-- `find?` after an `UPDATE ... WHERE`-style map: when the update
preserves the predicate, the first match of the updated list is the
updated first match of the original list. -/
theorem find?_map_if {α : Type} (p : α → Bool) (f : α → α)
    (hf : ∀ x, p (f x) = p x) (l : List α) :
    (l.map (fun x => if p x then f x else x)).find? p = (l.find? p).map f := by
  induction l with
  | nil => rfl
  | cons a t ih =>
    by_cases hpa : p a = true
    · simp only [List.map_cons, if_pos hpa]
      rw [List.find?_cons_of_pos _ ((hf a).trans hpa),
        List.find?_cons_of_pos _ hpa, Option.map_some']
    · simp only [List.map_cons, if_neg hpa]
      rw [List.find?_cons_of_neg _ hpa, List.find?_cons_of_neg _ hpa, ih]

/-- A freshly generated id is found exactly at the appended row. -/
theorem find?_append_fresh {α : Type} (p : α → Bool) (a : α) (l : List α)
    (hl : ∀ x ∈ l, ¬ p x = true) (ha : p a = true) :
    (l ++ [a]).find? p = some a := by
  rw [List.find?_append, List.find?_eq_none.mpr hl, Option.none_or,
    List.find?_cons_of_pos _ ha]

/-- Searching a filtered-out predicate finds nothing: the model of a
`SELECT` right after the `DELETE` of the very rows it looks for. -/
theorem find?_filter_not {α : Type} (p : α → Bool) (l : List α) :
    (l.filter (fun x => !(p x))).find? p = none := by
  rw [List.find?_eq_none]
  intro x hx
  have := (List.mem_filter.mp hx).2
  simp only [Bool.not_eq_true'] at this
  simp [this]

/-! ### Concrete fixtures used by witnesses and counterexamples -/

/-- A request host URL as Flask reports it (trailing slash included). -/
def hostX : String := "http://localhost:8080/"

/-- A stored business row (zip code in its VARCHAR storage form). -/
def bizFix : BusinessRow :=
  { id := 1, owner_id := 7, name := "Blue Door Cafe",
    street_address := "100 Main St", city := "Corvallis", state := "OR",
    zip_code := "97330" }

/-- A second stored business row. -/
def bizFix2 : BusinessRow :=
  { id := 2, owner_id := 7, name := "Red Door Books",
    street_address := "200 Oak Ave", city := "Albany", state := "OR",
    zip_code := "97321" }

/-- A stored review row: user 4 reviewing business 1. -/
def revFix : ReviewRow :=
  { id := 1, user_id := 4, business_id := 1, stars := 5,
    review_text := some "great coffee" }

/-- A second stored review row: user 9 reviewing business 1. -/
def revFix2 : ReviewRow :=
  { id := 2, user_id := 9, business_id := 1, stars := 2,
    review_text := none }

/-- A store with two businesses and two reviews of business 1. -/
def storeFix : Store :=
  { businesses := [bizFix, bizFix2], reviews := [revFix, revFix2],
    nextBusinessId := 3, nextReviewId := 3 }

/-! ### Branch lemmas for `create_review` (shared by several claims) -/

/-- The conflict message of `create_review`. -/
def conflictMsg : String :=
  "You have already submitted a review for this business. You can update your previous review, or delete it and submit a new review"

/-- The shared missing-attributes message. -/
def missingMsg : String :=
  "The request body is missing at least one of the required attributes"

theorem create_review_missing (host : String) (data : ReviewBody) (s : Store)
    (h : data.user_id = none ∨ data.business_id = none ∨ data.stars = none) :
    create_review host data s = (⟨400, errBody missingMsg⟩, s) := by
  unfold create_review
  rcases h with h | h | h <;> rw [h] <;>
    rcases data.user_id with _ | u <;>
    rcases data.business_id with _ | b <;>
    rcases data.stars with _ | st <;> rfl

theorem create_review_no_business (host : String) (data : ReviewBody) (s : Store)
    (uid bid stars : Int) (hu : data.user_id = some uid)
    (hb : data.business_id = some bid) (hs : data.stars = some stars)
    (hno : ∀ b ∈ s.businesses, b.id ≠ bid) :
    create_review host data s =
      (⟨404, errBody "No business with this business_id exists"⟩, s) := by
  have hfb : s.businesses.find? (fun b => b.id == bid) = none := by
    rw [List.find?_eq_none]
    intro b hbmem
    simp [hno b hbmem]
  unfold create_review
  rw [hu, hb, hs]
  simp only [hfb]

theorem create_review_conflict (host : String) (data : ReviewBody) (s : Store)
    (uid bid stars : Int) (hu : data.user_id = some uid)
    (hb : data.business_id = some bid) (hs : data.stars = some stars)
    (b : BusinessRow) (hbmem : b ∈ s.businesses) (hbid : b.id = bid)
    (r : ReviewRow) (hrmem : r ∈ s.reviews) (hruid : r.user_id = uid)
    (hrbid : r.business_id = bid) :
    create_review host data s = (⟨409, errBody conflictMsg⟩, s) := by
  have h1 : (s.businesses.find? (fun b => b.id == bid)).isSome := by
    rw [List.find?_isSome]
    exact ⟨b, hbmem, by simp [hbid]⟩
  have h2 : (s.reviews.find? (fun r => r.user_id == uid && r.business_id == bid)).isSome := by
    rw [List.find?_isSome]
    exact ⟨r, hrmem, by simp [hruid, hrbid]⟩
  unfold create_review
  rw [hu, hb, hs]
  cases hfb : s.businesses.find? (fun b => b.id == bid) with
  | none => rw [hfb] at h1; simp at h1
  | some b' =>
    cases hfr : s.reviews.find? (fun r => r.user_id == uid && r.business_id == bid) with
    | none => rw [hfr] at h2; simp at h2
    | some r' => simp only [hfb, hfr, conflictMsg]

theorem create_review_success (host : String) (data : ReviewBody) (s : Store)
    (uid bid stars : Int) (hu : data.user_id = some uid)
    (hb : data.business_id = some bid) (hs : data.stars = some stars)
    (b : BusinessRow) (hbmem : b ∈ s.businesses) (hbid : b.id = bid)
    (hnoconf : ∀ r ∈ s.reviews, ¬(r.user_id = uid ∧ r.business_id = bid))
    (hfresh : ∀ r ∈ s.reviews, r.id ≠ s.nextReviewId) :
    create_review host data s =
      (⟨201, .obj (format_review_response host
          ⟨s.nextReviewId, uid, bid, stars, data.review_text.join⟩)⟩,
       { s with
         reviews := s.reviews ++
           [⟨s.nextReviewId, uid, bid, stars, data.review_text.join⟩],
         nextReviewId := s.nextReviewId + 1 }) := by
  have h1 : (s.businesses.find? (fun b => b.id == bid)).isSome := by
    rw [List.find?_isSome]
    exact ⟨b, hbmem, by simp [hbid]⟩
  have hfr : s.reviews.find? (fun r => r.user_id == uid && r.business_id == bid) = none := by
    rw [List.find?_eq_none]
    intro r hrmem
    have := hnoconf r hrmem
    simp only [Bool.and_eq_true, beq_iff_eq]
    exact fun hc => this ⟨hc.1, hc.2⟩
  have hrefetch :
      (s.reviews ++ [(⟨s.nextReviewId, uid, bid, stars, data.review_text.join⟩ : ReviewRow)]).find?
        (fun r => r.id == s.nextReviewId) =
      some ⟨s.nextReviewId, uid, bid, stars, data.review_text.join⟩ := by
    apply find?_append_fresh
    · intro r hrmem
      simp [hfresh r hrmem]
    · simp
  unfold create_review
  rw [hu, hb, hs]
  cases hfbx : s.businesses.find? (fun b => b.id == bid) with
  | none => rw [hfbx] at h1; simp at h1
  | some b' =>
    simp only [hfbx, hfr, hrefetch]

/-! ### C1 — duplicate review returns 409 and leaves the store unchanged -/

/-- C1: for every Review row already present for a pair
(user_id, business_id), a `POST /reviews` with that same user_id and
business_id (stars present, referenced business stored) returns HTTP 409
with the conflict message and leaves the store unchanged — the existing
Review row keeps all its field values and no new Review row is inserted. -/
theorem C1_duplicate_review_conflict (host : String) (data : ReviewBody)
    (s : Store) (r : ReviewRow) (hrmem : r ∈ s.reviews)
    (hu : data.user_id = some r.user_id)
    (hb : data.business_id = some r.business_id)
    (stars : Int) (hs : data.stars = some stars)
    (b : BusinessRow) (hbmem : b ∈ s.businesses) (hbid : b.id = r.business_id) :
    create_review host data s = (⟨409, errBody conflictMsg⟩, s) :=
  create_review_conflict host data s r.user_id r.business_id stars hu hb hs
    b hbmem hbid r hrmem rfl rfl

/-- C1 witness: a concrete duplicate `POST /reviews` against `storeFix`. -/
theorem C1_duplicate_review_conflict_witness :
    create_review hostX ⟨some 4, some 1, some 3, none⟩ storeFix =
      (⟨409, errBody conflictMsg⟩, storeFix) :=
  C1_duplicate_review_conflict hostX ⟨some 4, some 1, some 3, none⟩ storeFix
    revFix (by simp [storeFix]) rfl rfl 3 rfl bizFix (by simp [storeFix]) rfl

/-! ### C3 — outcome order of `POST /reviews` -/

/-- C3: `POST /reviews` settles its outcome in order: a body missing one of
user_id, business_id, stars returns 400; otherwise a nonexistent
business_id returns 404; otherwise an existing Review for
(user_id, business_id) returns 409; otherwise the Review is inserted with
the generated id, re-fetched by that id, and returned formatted with
HTTP 201. -/
theorem C3_create_review_order (host : String) (data : ReviewBody) (s : Store) :
    (data.user_id = none ∨ data.business_id = none ∨ data.stars = none →
      create_review host data s = (⟨400, errBody missingMsg⟩, s)) ∧
    (∀ uid bid stars : Int, data.user_id = some uid →
      data.business_id = some bid → data.stars = some stars →
      (∀ b ∈ s.businesses, b.id ≠ bid) →
      create_review host data s =
        (⟨404, errBody "No business with this business_id exists"⟩, s)) ∧
    (∀ uid bid stars : Int, ∀ b : BusinessRow, ∀ r : ReviewRow,
      data.user_id = some uid → data.business_id = some bid →
      data.stars = some stars → b ∈ s.businesses → b.id = bid →
      r ∈ s.reviews → r.user_id = uid → r.business_id = bid →
      create_review host data s = (⟨409, errBody conflictMsg⟩, s)) ∧
    (∀ uid bid stars : Int, ∀ b : BusinessRow,
      data.user_id = some uid → data.business_id = some bid →
      data.stars = some stars → b ∈ s.businesses → b.id = bid →
      (∀ r ∈ s.reviews, ¬(r.user_id = uid ∧ r.business_id = bid)) →
      (∀ r ∈ s.reviews, r.id ≠ s.nextReviewId) →
      create_review host data s =
        (⟨201, .obj (format_review_response host
            ⟨s.nextReviewId, uid, bid, stars, data.review_text.join⟩)⟩,
         { s with
           reviews := s.reviews ++
             [⟨s.nextReviewId, uid, bid, stars, data.review_text.join⟩],
           nextReviewId := s.nextReviewId + 1 })) :=
  ⟨fun h => create_review_missing host data s h,
   fun uid bid stars hu hb hs hno =>
     create_review_no_business host data s uid bid stars hu hb hs hno,
   fun uid bid stars b r hu hb hs hbmem hbid hrmem hruid hrbid =>
     create_review_conflict host data s uid bid stars hu hb hs b hbmem hbid
       r hrmem hruid hrbid,
   fun uid bid stars b hu hb hs hbmem hbid hnoconf hfresh =>
     create_review_success host data s uid bid stars hu hb hs b hbmem hbid
       hnoconf hfresh⟩

/-- C3 witness: the four outcomes at concrete requests against `storeFix`:
missing field, unknown business, duplicate review, and a successful
creation that appends the row with the generated id 3. -/
theorem C3_create_review_order_witness :
    create_review hostX ⟨none, some 1, some 3, none⟩ storeFix =
      (⟨400, errBody missingMsg⟩, storeFix) ∧
    create_review hostX ⟨some 4, some 99, some 3, none⟩ storeFix =
      (⟨404, errBody "No business with this business_id exists"⟩, storeFix) ∧
    create_review hostX ⟨some 9, some 1, some 4, none⟩ storeFix =
      (⟨409, errBody conflictMsg⟩, storeFix) ∧
    create_review hostX ⟨some 5, some 2, some 4, some (some "nice")⟩ storeFix =
      (⟨201, .obj (format_review_response hostX ⟨3, 5, 2, 4, some "nice"⟩)⟩,
       { storeFix with
         reviews := storeFix.reviews ++ [⟨3, 5, 2, 4, some "nice"⟩],
         nextReviewId := storeFix.nextReviewId + 1 }) :=
  ⟨(C3_create_review_order hostX ⟨none, some 1, some 3, none⟩ storeFix).1
     (Or.inl rfl),
   (C3_create_review_order hostX ⟨some 4, some 99, some 3, none⟩ storeFix).2.1
     4 99 3 rfl rfl rfl (by decide),
   (C3_create_review_order hostX ⟨some 9, some 1, some 4, none⟩ storeFix).2.2.1
     9 1 4 bizFix revFix2 rfl rfl rfl (by simp [storeFix]) rfl
     (by simp [storeFix]) rfl rfl,
   (C3_create_review_order hostX ⟨some 5, some 2, some 4, some (some "nice")⟩
       storeFix).2.2.2
     5 2 4 bizFix2 rfl rfl rfl (by simp [storeFix]) rfl (by decide) (by decide)⟩

/-! ### C2 — delete business cascades to its reviews -/

/-- C2: `DELETE /businesses/{id}` on a stored Business (in a store with
unique review ids) returns HTTP 204 with an empty body, removes the
Business row and every referencing Review row, so that a subsequent
`GET /reviews/{id}` on any of those review ids returns 404; on an unknown
id the response is 404 and the store is unchanged. -/
theorem C2_delete_business_cascade (bid : Int) (s : Store)
    (hids : ∀ r1 ∈ s.reviews, ∀ r2 ∈ s.reviews, r1.id = r2.id → r1 = r2) :
    ((∀ b ∈ s.businesses, b.id ≠ bid) →
      delete_business bid s =
        (⟨404, errBody "No business with this business_id exists"⟩, s)) ∧
    (∀ b : BusinessRow, b ∈ s.businesses → b.id = bid →
      delete_business bid s =
        (⟨204, .str ""⟩,
         { s with
           reviews := s.reviews.filter (fun r => !(r.business_id == bid)),
           businesses := s.businesses.filter (fun b => !(b.id == bid)) }) ∧
      (∀ r ∈ s.reviews, r.business_id = bid →
        ∀ host sid, pyParseInt sid = some r.id →
          get_review host sid (delete_business bid s).2 =
            ⟨404, errBody "No review with this review_id exists"⟩)) := by
  constructor
  · intro hno
    have hf : s.businesses.find? (fun b => b.id == bid) = none := by
      rw [List.find?_eq_none]
      intro b hbmem
      simp [hno b hbmem]
    unfold delete_business
    simp only [hf]
  · intro b hbmem hbid
    have hfb : (s.businesses.find? (fun b => b.id == bid)).isSome :=
      List.find?_isSome.mpr ⟨b, hbmem, by simp [hbid]⟩
    cases hf : s.businesses.find? (fun b => b.id == bid) with
    | none => rw [hf] at hfb; simp at hfb
    | some b0 =>
      have hdel : delete_business bid s =
          (⟨204, .str ""⟩,
           { s with
             reviews := s.reviews.filter (fun r => !(r.business_id == bid)),
             businesses := s.businesses.filter (fun b => !(b.id == bid)) }) := by
        unfold delete_business
        simp only [hf]
      refine ⟨hdel, ?_⟩
      intro r hrmem hrbid host sid hsid
      have hnone :
          (s.reviews.filter (fun r => !(r.business_id == bid))).find?
            (fun x => x.id == r.id) = none := by
        rw [List.find?_eq_none]
        intro x hx
        have hxmem := (List.mem_filter.mp hx).1
        have hxbid := (List.mem_filter.mp hx).2
        simp only [beq_iff_eq]
        intro hxid
        have hxr : x = r := hids x hxmem r hrmem hxid
        rw [hxr, hrbid] at hxbid
        simp at hxbid
      rw [hdel]
      unfold get_review
      rw [hsid]
      simp only [hnone]

/-- C2 witness: deleting business 1 from `storeFix` removes it and its two
reviews; both review ids then 404 on GET, and an unknown business id
404s with the store unchanged. -/
theorem C2_delete_business_cascade_witness :
    delete_business 99 storeFix =
      (⟨404, errBody "No business with this business_id exists"⟩, storeFix) ∧
    delete_business 1 storeFix =
      (⟨204, .str ""⟩,
       { storeFix with
         reviews := storeFix.reviews.filter (fun r => !(r.business_id == 1)),
         businesses := storeFix.businesses.filter (fun b => !(b.id == 1)) }) ∧
    get_review hostX "1" (delete_business 1 storeFix).2 =
      ⟨404, errBody "No review with this review_id exists"⟩ ∧
    get_review hostX "2" (delete_business 1 storeFix).2 =
      ⟨404, errBody "No review with this review_id exists"⟩ :=
  ⟨(C2_delete_business_cascade 99 storeFix (by decide)).1 (by decide),
   ((C2_delete_business_cascade 1 storeFix (by decide)).2 bizFix
      (by simp [storeFix]) rfl).1,
   ((C2_delete_business_cascade 1 storeFix (by decide)).2 bizFix
      (by simp [storeFix]) rfl).2 revFix (by simp [storeFix]) rfl hostX "1" (by decide),
   ((C2_delete_business_cascade 1 storeFix (by decide)).2 bizFix
      (by simp [storeFix]) rfl).2 revFix2 (by simp [storeFix]) rfl hostX "2" (by decide)⟩

/-! ### C9 — delete review -/

/-- C9: `DELETE /reviews/{id}` returns 404 when no Review with that id
exists; otherwise it deletes the Review row and returns HTTP 204 with an
empty body, and a subsequent `GET /reviews/{id}` on that id returns 404. -/
theorem C9_delete_review (rid : Int) (s : Store) :
    ((∀ r ∈ s.reviews, r.id ≠ rid) →
      delete_review rid s =
        (⟨404, errBody "No review with this review_id exists"⟩, s)) ∧
    (∀ r : ReviewRow, r ∈ s.reviews → r.id = rid →
      delete_review rid s =
        (⟨204, .str ""⟩,
         { s with reviews := s.reviews.filter (fun r => !(r.id == rid)) }) ∧
      (∀ host sid, pyParseInt sid = some rid →
        get_review host sid (delete_review rid s).2 =
          ⟨404, errBody "No review with this review_id exists"⟩)) := by
  constructor
  · intro hno
    have hf : s.reviews.find? (fun r => r.id == rid) = none := by
      rw [List.find?_eq_none]
      intro r hrmem
      simp [hno r hrmem]
    unfold delete_review
    simp only [hf]
  · intro r hrmem hrid
    have hsome : (s.reviews.find? (fun r => r.id == rid)).isSome :=
      List.find?_isSome.mpr ⟨r, hrmem, by simp [hrid]⟩
    cases hf : s.reviews.find? (fun r => r.id == rid) with
    | none => rw [hf] at hsome; simp at hsome
    | some r0 =>
      have hdel : delete_review rid s =
          (⟨204, .str ""⟩,
           { s with reviews := s.reviews.filter (fun r => !(r.id == rid)) }) := by
        unfold delete_review
        simp only [hf]
      refine ⟨hdel, ?_⟩
      intro host sid hsid
      have hnone :
          (s.reviews.filter (fun r => !(r.id == rid))).find?
            (fun x => x.id == rid) = none :=
        find?_filter_not (fun x => x.id == rid) s.reviews
      rw [hdel]
      unfold get_review
      rw [hsid]
      simp only [hnone]

/-- C9 witness: deleting review 2 from `storeFix` removes exactly that row,
a GET on id 2 then 404s, and deleting an unknown id 404s unchanged. -/
theorem C9_delete_review_witness :
    delete_review 77 storeFix =
      (⟨404, errBody "No review with this review_id exists"⟩, storeFix) ∧
    delete_review 2 storeFix =
      (⟨204, .str ""⟩,
       { storeFix with
         reviews := storeFix.reviews.filter (fun r => !(r.id == 2)) }) ∧
    get_review hostX "2" (delete_review 2 storeFix).2 =
      ⟨404, errBody "No review with this review_id exists"⟩ :=
  ⟨(C9_delete_review 77 storeFix).1 (by decide),
   ((C9_delete_review 2 storeFix).2 revFix2 (by simp [storeFix]) rfl).1,
   ((C9_delete_review 2 storeFix).2 revFix2 (by simp [storeFix]) rfl).2
     hostX "2" (by decide)⟩

/-! ### C8 — get review, including the 200-on-parse-failure behaviour -/

/-- C8: `GET /reviews/{id}` with a path id that does not parse as an
integer returns HTTP 200 with an error body; with a parsed id matching no
Review row it returns 404; with a stored row it returns the formatted
Review and 200. -/
theorem C8_get_review (host : String) (sid : String) (s : Store) :
    (pyParseInt sid = none →
      get_review host sid s = ⟨200, errBody "review_id must be an integer"⟩) ∧
    (∀ rid : Int, pyParseInt sid = some rid → (∀ r ∈ s.reviews, r.id ≠ rid) →
      get_review host sid s =
        ⟨404, errBody "No review with this review_id exists"⟩) ∧
    (∀ rid : Int, ∀ r : ReviewRow, pyParseInt sid = some rid →
      s.reviews.find? (fun r => r.id == rid) = some r →
      get_review host sid s = ⟨200, .obj (format_review_response host r)⟩) := by
  refine ⟨?_, ?_, ?_⟩
  · intro hp
    unfold get_review
    rw [hp]
  · intro rid hp hno
    have hf : s.reviews.find? (fun r => r.id == rid) = none := by
      rw [List.find?_eq_none]
      intro r hrmem
      simp [hno r hrmem]
    unfold get_review
    rw [hp]
    simp only [hf]
  · intro rid r hp hf
    unfold get_review
    rw [hp]
    simp only [hf]

/-- C8 witness: the three concrete outcomes against `storeFix`, including
the observed HTTP 200 on the non-integer path id "abc". -/
theorem C8_get_review_witness :
    get_review hostX "abc" storeFix =
      ⟨200, errBody "review_id must be an integer"⟩ ∧
    get_review hostX "42" storeFix =
      ⟨404, errBody "No review with this review_id exists"⟩ ∧
    get_review hostX "1" storeFix =
      ⟨200, .obj (format_review_response hostX revFix)⟩ :=
  ⟨(C8_get_review hostX "abc" storeFix).1 (by decide),
   (C8_get_review hostX "42" storeFix).2.1 42 (by decide) (by decide),
   (C8_get_review hostX "1" storeFix).2.2 1 revFix (by decide) (by decide)⟩

/-! ### C5 — partial review update applies only the supplied fields -/

/-- C5: `PUT /reviews/{id}` on a stored Review applies only the supplied
fields: a body with only `stars` updates stars and leaves every stored
`review_text` unchanged, a body with only `review_text` updates the text
and leaves every stored `stars` unchanged, and the response is the
re-fetched formatted Review with HTTP 200 reflecting the update. -/
theorem C5_edit_review_patch (host : String) (rid : Int) (s : Store)
    (r : ReviewRow) (hf : s.reviews.find? (fun r => r.id == rid) = some r) :
    (∀ st : Int,
      edit_review host rid ⟨some (some st), none⟩ s =
        (⟨200, .obj (format_review_response host { r with stars := st })⟩,
         { s with reviews := s.reviews.map (fun x =>
             if x.id == rid then { x with stars := st } else x) }) ∧
      (edit_review host rid ⟨some (some st), none⟩ s).2.reviews.map
          (fun x => x.review_text) = s.reviews.map (fun x => x.review_text)) ∧
    (∀ txt : String,
      edit_review host rid ⟨none, some (some txt)⟩ s =
        (⟨200, .obj (format_review_response host
            { r with review_text := some txt })⟩,
         { s with reviews := s.reviews.map (fun x =>
             if x.id == rid then { x with review_text := some txt } else x) }) ∧
      (edit_review host rid ⟨none, some (some txt)⟩ s).2.reviews.map
          (fun x => x.stars) = s.reviews.map (fun x => x.stars)) := by
  constructor
  · intro st
    have hrefetch :
        (s.reviews.map (fun x => if x.id == rid then
            coalesceUpdate ⟨some (some st), none⟩ x else x)).find?
          (fun x => x.id == rid) =
        some (coalesceUpdate ⟨some (some st), none⟩ r) := by
      rw [find?_map_if (fun x => x.id == rid)
        (coalesceUpdate ⟨some (some st), none⟩) (fun x => rfl) s.reviews, hf,
        Option.map_some']
    have h1 : edit_review host rid ⟨some (some st), none⟩ s =
        (⟨200, .obj (format_review_response host { r with stars := st })⟩,
         { s with reviews := s.reviews.map (fun x =>
             if x.id == rid then { x with stars := st } else x) }) := by
      unfold edit_review
      simp only [Option.isNone_some, Bool.false_and, Bool.and_false,
        if_neg (by simp : ¬(false = true)), hf, hrefetch]
      rfl
    refine ⟨h1, ?_⟩
    rw [h1]
    simp only [List.map_map]
    apply List.map_congr_left
    intro x _
    by_cases hpx : x.id = rid <;> simp [hpx]
  · intro txt
    have hrefetch :
        (s.reviews.map (fun x => if x.id == rid then
            coalesceUpdate ⟨none, some (some txt)⟩ x else x)).find?
          (fun x => x.id == rid) =
        some (coalesceUpdate ⟨none, some (some txt)⟩ r) := by
      rw [find?_map_if (fun x => x.id == rid)
        (coalesceUpdate ⟨none, some (some txt)⟩) (fun x => rfl) s.reviews, hf,
        Option.map_some']
    have h1 : edit_review host rid ⟨none, some (some txt)⟩ s =
        (⟨200, .obj (format_review_response host
            { r with review_text := some txt })⟩,
         { s with reviews := s.reviews.map (fun x =>
             if x.id == rid then { x with review_text := some txt } else x) }) := by
      unfold edit_review
      simp only [Option.isNone_some, Bool.false_and, Bool.and_false,
        if_neg (by simp : ¬(false = true)), hf, hrefetch]
      rfl
    refine ⟨h1, ?_⟩
    rw [h1]
    simp only [List.map_map]
    apply List.map_congr_left
    intro x _
    by_cases hpx : x.id = rid <;> simp [hpx]

/-- C5 witness: updating review 1 of `storeFix` with only stars, then with
only review_text, each leaving the other stored field unchanged. -/
theorem C5_edit_review_patch_witness :
    edit_review hostX 1 ⟨some (some 4), none⟩ storeFix =
      (⟨200, .obj (format_review_response hostX { revFix with stars := 4 })⟩,
       { storeFix with reviews := storeFix.reviews.map (fun x =>
           if x.id == 1 then { x with stars := 4 } else x) }) ∧
    (edit_review hostX 1 ⟨some (some 4), none⟩ storeFix).2.reviews.map
        (fun x => x.review_text) =
      storeFix.reviews.map (fun x => x.review_text) ∧
    edit_review hostX 1 ⟨none, some (some "ok")⟩ storeFix =
      (⟨200, .obj (format_review_response hostX
          { revFix with review_text := some "ok" })⟩,
       { storeFix with reviews := storeFix.reviews.map (fun x =>
           if x.id == 1 then { x with review_text := some "ok" } else x) }) ∧
    (edit_review hostX 1 ⟨none, some (some "ok")⟩ storeFix).2.reviews.map
        (fun x => x.stars) =
      storeFix.reviews.map (fun x => x.stars) :=
  ⟨((C5_edit_review_patch hostX 1 storeFix revFix (by decide)).1 4).1,
   ((C5_edit_review_patch hostX 1 storeFix revFix (by decide)).1 4).2,
   ((C5_edit_review_patch hostX 1 storeFix revFix (by decide)).2 "ok").1,
   ((C5_edit_review_patch hostX 1 storeFix revFix (by decide)).2 "ok").2⟩

/-! ### C10 — an explicit null in a review update cannot clear a field -/

/-- The reviews table after `edit_review` is either untouched (400 or 404
exit) or the coalesce-style UPDATE of the matching rows. -/
theorem edit_review_reviews (host : String) (rid : Int)
    (body : ReviewPatchBody) (s : Store) :
    (edit_review host rid body s).2.reviews = s.reviews ∨
    (edit_review host rid body s).2.reviews =
      s.reviews.map (fun r => if r.id == rid then coalesceUpdate body r else r) := by
  unfold edit_review
  by_cases hc : (body.stars.isNone && body.review_text.isNone) = true
  · rw [if_pos hc]
    exact Or.inl rfl
  · rw [if_neg hc]
    cases hfr : s.reviews.find? (fun r => r.id == rid) with
    | none => simp only [hfr]; exact Or.inl trivial
    | some r0 =>
      simp only [hfr]
      cases hrf : (s.reviews.map (fun r =>
          if r.id == rid then coalesceUpdate body r else r)).find?
            (fun r => r.id == rid) with
      | none => simp only [hrf]; exact Or.inr trivial
      | some r1 => simp only [hrf]; exact Or.inr trivial

/-- A coalesce update with an explicit null `review_text` parameter keeps
the stored text. -/
theorem coalesceUpdate_text_of_null (body : ReviewPatchBody) (x : ReviewRow)
    (h : body.review_text = some none) :
    (coalesceUpdate body x).review_text = x.review_text := by
  simp [coalesceUpdate, h, Option.join]

/-- A coalesce update with an explicit null `stars` parameter keeps the
stored stars. -/
theorem coalesceUpdate_stars_of_null (body : ReviewPatchBody) (x : ReviewRow)
    (h : body.stars = some none) :
    (coalesceUpdate body x).stars = x.stars := by
  simp [coalesceUpdate, h, Option.join]

/-- C10: a `PUT /reviews/{id}` body carrying `review_text` (or `stars`)
with an explicit JSON null leaves that stored column unchanged in every
row — the coalesce-style UPDATE makes it impossible to clear
`review_text` back to null once set. -/
theorem C10_edit_review_null_keeps (host : String) (rid : Int) (s : Store)
    (body : ReviewPatchBody) :
    (body.review_text = some none →
      (edit_review host rid body s).2.reviews.map (fun r => r.review_text) =
        s.reviews.map (fun r => r.review_text)) ∧
    (body.stars = some none →
      (edit_review host rid body s).2.reviews.map (fun r => r.stars) =
        s.reviews.map (fun r => r.stars)) := by
  constructor
  · intro hrt
    rcases edit_review_reviews host rid body s with h | h <;> rw [h]
    rw [List.map_map]
    apply List.map_congr_left
    intro x _
    by_cases hpx : x.id = rid
    · simp [Function.comp, hpx, coalesceUpdate_text_of_null body x hrt]
    · simp [Function.comp, hpx]
  · intro hst
    rcases edit_review_reviews host rid body s with h | h <;> rw [h]
    rw [List.map_map]
    apply List.map_congr_left
    intro x _
    by_cases hpx : x.id = rid
    · simp [Function.comp, hpx, coalesceUpdate_stars_of_null body x hst]
    · simp [Function.comp, hpx]

/-- C10 witness: sending `review_text: null` (and `stars: null`) for
review 1 of `storeFix` leaves the respective stored column unchanged. -/
theorem C10_edit_review_null_keeps_witness :
    (edit_review hostX 1 ⟨some (some 2), some none⟩ storeFix).2.reviews.map
        (fun r => r.review_text) =
      storeFix.reviews.map (fun r => r.review_text) ∧
    (edit_review hostX 1 ⟨some none, some (some "x")⟩ storeFix).2.reviews.map
        (fun r => r.stars) =
      storeFix.reviews.map (fun r => r.stars) :=
  ⟨(C10_edit_review_null_keeps hostX 1 storeFix ⟨some (some 2), some none⟩).1 rfl,
   (C10_edit_review_null_keeps hostX 1 storeFix ⟨some none, some (some "x")⟩).2 rfl⟩

/-! ### C7 — create business requires all six fields -/

/-- C7: a `POST /businesses` body missing any one of the six required
fields gets HTTP 400 with an `{"Error": ...}` body and persists no row;
with all six present the row is inserted, re-fetched by its generated id,
and returned with a `self` link and HTTP 201. -/
theorem C7_create_business (host : String) (data : BusinessBody) (s : Store) :
    (data.owner_id = none ∨ data.name = none ∨ data.street_address = none ∨
      data.city = none ∨ data.state = none ∨ data.zip_code = none →
      create_business host data s = (⟨400, errBody missingMsg⟩, s)) ∧
    (∀ (oid : Int) (nm sa ci st : String) (z : Int),
      data.owner_id = some oid → data.name = some nm →
      data.street_address = some sa → data.city = some ci →
      data.state = some st → data.zip_code = some z →
      (∀ b ∈ s.businesses, b.id ≠ s.nextBusinessId) →
      create_business host data s =
        (⟨201, .obj (format_business_response
            ⟨s.nextBusinessId, oid, nm, sa, ci, st, toString z⟩ ++
            [("self", .str (host ++ "businesses/" ++
              toString s.nextBusinessId))])⟩,
         { s with
           businesses := s.businesses ++
             [⟨s.nextBusinessId, oid, nm, sa, ci, st, toString z⟩],
           nextBusinessId := s.nextBusinessId + 1 })) := by
  constructor
  · intro h
    unfold create_business
    rcases h with h | h | h | h | h | h <;> rw [h] <;>
      rcases data.owner_id with _ | oid <;>
      rcases data.name with _ | nm <;>
      rcases data.street_address with _ | sa <;>
      rcases data.city with _ | ci <;>
      rcases data.state with _ | st <;>
      rcases data.zip_code with _ | z <;> rfl
  · intro oid nm sa ci st z ho hn hsa hci hst hz hfresh
    have hrefetch :
        (s.businesses ++
          [(⟨s.nextBusinessId, oid, nm, sa, ci, st, toString z⟩ : BusinessRow)]).find?
            (fun b => b.id == s.nextBusinessId) =
        some ⟨s.nextBusinessId, oid, nm, sa, ci, st, toString z⟩ := by
      apply find?_append_fresh
      · intro b hbmem
        simp [hfresh b hbmem]
      · simp
    unfold create_business
    rw [ho, hn, hsa, hci, hst, hz]
    simp only [hrefetch]

/-- C7 witness: concrete 400 on a missing name and 201 appending business
id 3 to `storeFix`. -/
theorem C7_create_business_witness :
    create_business hostX ⟨some 7, none, some "5 Pine", some "Salem",
        some "OR", some 97301⟩ storeFix = (⟨400, errBody missingMsg⟩, storeFix) ∧
    create_business hostX ⟨some 7, some "New Cafe", some "5 Pine",
        some "Salem", some "OR", some 97301⟩ storeFix =
      (⟨201, .obj (format_business_response
          ⟨3, 7, "New Cafe", "5 Pine", "Salem", "OR", toString (97301 : Int)⟩ ++
          [("self", .str (hostX ++ "businesses/" ++ toString (3 : Int)))])⟩,
       { storeFix with
         businesses := storeFix.businesses ++
           [⟨3, 7, "New Cafe", "5 Pine", "Salem", "OR", toString (97301 : Int)⟩],
         nextBusinessId := storeFix.nextBusinessId + 1 }) :=
  ⟨(C7_create_business hostX ⟨some 7, none, some "5 Pine", some "Salem",
      some "OR", some 97301⟩ storeFix).1 (Or.inr (Or.inl rfl)),
   (C7_create_business hostX ⟨some 7, some "New Cafe", some "5 Pine",
      some "Salem", some "OR", some 97301⟩ storeFix).2
     7 "New Cafe" "5 Pine" "Salem" "OR" 97301 rfl rfl rfl rfl rfl rfl (by decide)⟩

/-! ### C6 — pagination of the business listing -/

/-- The parsed-and-nonnegative reduction of `get_businesses` (shared
helper). -/
theorem get_businesses_parsed (host : String) (la oa : Option String)
    (s : Store) (limit offset : Int)
    (hl : argInt la 3 = some limit) (ho : argInt oa 0 = some offset)
    (hl0 : 0 ≤ limit) (ho0 : 0 ≤ offset) :
    get_businesses host la oa s =
      (if offset + limit < (s.businesses.length : Int) then
        ⟨200, .obj [("entries", .arr
            (((s.businesses.drop offset.toNat).take limit.toNat).map
              (fun b => Value.obj (format_business_response b ++
                [("self", .str (host ++ "businesses/" ++ toString b.id))])))),
          ("next", .str (host ++ "businesses?offset=" ++
            toString (offset + limit) ++ "&limit=" ++ toString limit))]⟩
       else
        ⟨200, .obj [("entries", .arr
            (((s.businesses.drop offset.toNat).take limit.toNat).map
              (fun b => Value.obj (format_business_response b ++
                [("self", .str (host ++ "businesses/" ++
                  toString b.id))]))))]⟩) := by
  unfold get_businesses
  rw [hl, ho]
  show (if limit < 0 ∨ offset < 0 then internalServerError else _) = _
  rw [if_neg (not_or.mpr ⟨not_lt.mpr hl0, not_lt.mpr ho0⟩ :
    ¬(limit < 0 ∨ offset < 0))]

/-- A parsed negative limit or offset reaches MySQL and the handler dies
with the unhandled-exception 500 (shared helper). -/
theorem get_businesses_negative (host : String) (la oa : Option String)
    (s : Store) (limit offset : Int)
    (hl : argInt la 3 = some limit) (ho : argInt oa 0 = some offset)
    (hneg : limit < 0 ∨ offset < 0) :
    get_businesses host la oa s = internalServerError := by
  unfold get_businesses
  rw [hl, ho]
  show (if limit < 0 ∨ offset < 0 then internalServerError else _) = _
  rw [if_pos hneg]

/-- C6 counterexample: the limit "-1" parses as an integer, so the claim
demands HTTP 200, but the handler passes -1 into the SQL `LIMIT`, MySQL
rejects it, and the request fails with the unhandled-exception 500. -/
theorem C6_negative_limit_counterexample :
    argInt (some "-1") 3 = some (-1) ∧
    get_businesses hostX (some "-1") none storeFix = internalServerError ∧
    (get_businesses hostX (some "-1") none storeFix).status = 500 :=
  ⟨by decide, rfl, rfl⟩

/-- C6 (amended): `GET /businesses` defaults limit to 3 and offset to 0; a
non-integer limit or offset yields 400; a parsed negative limit or offset
is rejected by MySQL and surfaces as an unhandled-exception 500; otherwise
the response is HTTP 200 with an `entries` envelope (even when empty)
holding the requested page, and a `next` URL advancing offset by limit is
present exactly when `offset + limit < total_count`. -/
theorem C6_get_businesses (host : String) (la oa : Option String) (s : Store) :
    (argInt la 3 = none ∨ argInt oa 0 = none →
      get_businesses host la oa s = ⟨400, errBody "Invalid limit or offset"⟩) ∧
    (∀ limit offset : Int,
      argInt la 3 = some limit → argInt oa 0 = some offset →
      limit < 0 ∨ offset < 0 →
      get_businesses host la oa s = internalServerError) ∧
    (∀ limit offset : Int,
      argInt la 3 = some limit → argInt oa 0 = some offset →
      0 ≤ limit → 0 ≤ offset →
      (get_businesses host la oa s).status = 200 ∧
      (get_businesses host la oa s).body.lookup "entries" =
        some (.arr (((s.businesses.drop offset.toNat).take limit.toNat).map
          (fun b => Value.obj (format_business_response b ++
            [("self", .str (host ++ "businesses/" ++ toString b.id))])))) ∧
      (get_businesses host la oa s).body.lookup "next" =
        (if offset + limit < (s.businesses.length : Int) then
          some (.str (host ++ "businesses?offset=" ++ toString (offset + limit) ++
            "&limit=" ++ toString limit))
         else none)) ∧
    (argInt none 3 = some 3 ∧ argInt none 0 = some 0) := by
  refine ⟨?_, ?_, ?_, rfl, rfl⟩
  · intro h
    unfold get_businesses
    rcases h with h | h
    · rw [h]
    · rw [h]
      cases hla : argInt la 3 with
      | none => simp only [hla]
      | some l => simp only [hla]
  · intro limit offset hl ho hneg
    exact get_businesses_negative host la oa s limit offset hl ho hneg
  · intro limit offset hl ho hl0 ho0
    rw [get_businesses_parsed host la oa s limit offset hl ho hl0 ho0]
    by_cases hlt : offset + limit < (s.businesses.length : Int)
    · rw [if_pos hlt]
      refine ⟨rfl, rfl, ?_⟩
      rw [if_pos hlt]
      rfl
    · rw [if_neg hlt]
      refine ⟨rfl, rfl, ?_⟩
      rw [if_neg hlt]
      rfl

/-- C6 witness: a non-integer limit 400s; limit "-1" gives the 500; the
defaults give 200 with no `next` over the 2-row `storeFix`; limit=1
produces a `next` URL advancing offset by limit. -/
theorem C6_get_businesses_witness :
    get_businesses hostX (some "abc") none storeFix =
      ⟨400, errBody "Invalid limit or offset"⟩ ∧
    get_businesses hostX (some "-1") none storeFix = internalServerError ∧
    (get_businesses hostX none none storeFix).status = 200 ∧
    (get_businesses hostX none none storeFix).body.lookup "next" = none ∧
    (get_businesses hostX (some "1") none storeFix).body.lookup "next" =
      some (.str (hostX ++ "businesses?offset=" ++ toString ((0 : Int) + 1) ++
        "&limit=" ++ toString (1 : Int))) :=
  ⟨(C6_get_businesses hostX (some "abc") none storeFix).1 (Or.inl (by decide)),
   (C6_get_businesses hostX (some "-1") none storeFix).2.1 (-1) 0
     (by decide) rfl (Or.inl (by decide)),
   ((C6_get_businesses hostX none none storeFix).2.2.1 3 0 rfl rfl
     (by decide) (by decide)).1,
   (((C6_get_businesses hostX none none storeFix).2.2.1 3 0 rfl rfl
     (by decide) (by decide)).2.2).trans (if_neg (by decide)),
   (((C6_get_businesses hostX (some "1") none storeFix).2.2.1 1 0
       (by decide) rfl (by decide) (by decide)).2.2).trans
     (if_pos (by decide))⟩

/-! ### C4 — zip_code typing across the business endpoints -/

/-- Every `create_business` outcome: the 400 rejection, the 500 re-fetch
miss, or the 201 with a formatted body. -/
theorem create_business_shape (host : String) (data : BusinessBody) (s : Store) :
    create_business host data s = (⟨400, errBody missingMsg⟩, s) ∨
    (∃ s', create_business host data s =
      (⟨500, errBody "Failed to fetch created business"⟩, s')) ∨
    (∃ b s', create_business host data s =
      (⟨201, .obj (format_business_response b ++
        [("self", .str (host ++ "businesses/" ++ toString b.id))])⟩, s')) := by
  unfold create_business
  rcases data.owner_id with _ | oid <;>
    rcases data.name with _ | nm <;>
    rcases data.street_address with _ | sa <;>
    rcases data.city with _ | ci <;>
    rcases data.state with _ | st <;>
    rcases data.zip_code with _ | z
  all_goals try exact Or.inl rfl
  rcases hrf : (s.businesses ++
      [(⟨s.nextBusinessId, oid, nm, sa, ci, st, toString z⟩ : BusinessRow)]).find?
        (fun b => b.id == s.nextBusinessId) with _ | b
  · exact Or.inr (Or.inl
      ⟨{ s with
          businesses := s.businesses ++
            [⟨s.nextBusinessId, oid, nm, sa, ci, st, toString z⟩],
          nextBusinessId := s.nextBusinessId + 1 }, by simp only [hrf]⟩)
  · exact Or.inr (Or.inr ⟨b,
      { s with
        businesses := s.businesses ++
          [⟨s.nextBusinessId, oid, nm, sa, ci, st, toString z⟩],
        nextBusinessId := s.nextBusinessId + 1 }, by simp only [hrf]⟩)

/-- Every `edit_business` outcome: 400, 404, or 200 with a formatted body. -/
theorem edit_business_shape (host : String) (bid : Int) (data : BusinessBody)
    (s : Store) :
    edit_business host bid data s = (⟨400, errBody missingMsg⟩, s) ∨
    (∃ s', edit_business host bid data s =
      (⟨404, errBody "No business with this business_id exists"⟩, s')) ∨
    (∃ b s', edit_business host bid data s =
      (⟨200, .obj (format_business_response b ++
        [("self", .str (rstripSlash host ++ "/businesses/" ++
          toString b.id))])⟩, s')) := by
  unfold edit_business
  rcases data.owner_id with _ | oid <;>
    rcases data.name with _ | nm <;>
    rcases data.street_address with _ | sa <;>
    rcases data.city with _ | ci <;>
    rcases data.state with _ | st <;>
    rcases data.zip_code with _ | z
  all_goals try exact Or.inl rfl
  rcases hf : s.businesses.find? (fun b => b.id == bid) with _ | b0
  · exact Or.inr (Or.inl ⟨s, by simp only [hf]⟩)
  · rcases hrf : (s.businesses.map (fun b =>
        if b.id == bid then
          ({ id := b.id, owner_id := oid, name := nm, street_address := sa,
             city := ci, state := st, zip_code := toString z } : BusinessRow)
        else b)).find? (fun b => b.id == bid) with _ | b1
    · exact Or.inr (Or.inl
        ⟨{ s with businesses := s.businesses.map (fun b =>
            if b.id == bid then
              { id := b.id, owner_id := oid, name := nm, street_address := sa,
                city := ci, state := st, zip_code := toString z }
            else b) }, by simp only [hf, hrf]⟩)
    · exact Or.inr (Or.inr ⟨b1,
        { s with businesses := s.businesses.map (fun b =>
            if b.id == bid then
              { id := b.id, owner_id := oid, name := nm, street_address := sa,
                city := ci, state := st, zip_code := toString z }
            else b) }, by simp only [hf, hrf]⟩)

/-- A formatted business response carries its zip code as a JSON integer. -/
theorem responseZipIsInt_obj (b : BusinessRow) (st : Nat) (selfv : Value) :
    responseZipIsInt ⟨st, .obj (format_business_response b ++
      [("self", selfv)])⟩ = true := rfl

/-- A formatted business entry carries its zip code as a JSON integer. -/
theorem entryZipIsInt_formatted (b : BusinessRow) (selfv : Value) :
    entryZipIsInt (Value.obj (format_business_response b ++
      [("self", selfv)])) = true := rfl

/-- A raw business row dict carries its zip code as a JSON string. -/
theorem entryZipIsStr_raw (b : BusinessRow) (selfv : Value) :
    entryZipIsStr (Value.obj (rawBusinessDict b ++
      [("self", selfv)])) = true := rfl

/-- C4 counterexample: `GET /owners/7/businesses` on `storeFix` returns the
first business's zip code as the JSON string "97330", not as an integer —
`list_owner_businesses` returns the raw row dict without the formatter. -/
theorem C4_owner_zip_string_counterexample :
    responseZipIsInt (list_owner_businesses hostX 7 storeFix) = false ∧
    responseZip (list_owner_businesses hostX 7 storeFix) =
      some (.str "97330") := ⟨rfl, rfl⟩

/-- C4 (amended): the formatted endpoints — `POST /businesses`,
`GET /businesses/{id}`, `GET /businesses`, `PUT /businesses/{id}` — return
zip_code as a JSON integer on success, while
`GET /owners/{owner_id}/businesses` returns each entry's zip_code as the
stored string. -/
theorem C4_zip_code_types :
    (∀ (host : String) (data : BusinessBody) (s : Store),
      (create_business host data s).1.status = 201 →
      responseZipIsInt (create_business host data s).1 = true) ∧
    (∀ (host : String) (bid : Int) (s : Store),
      (get_business_by_id host bid s).status = 200 →
      responseZipIsInt (get_business_by_id host bid s) = true) ∧
    (∀ (host : String) (la oa : Option String) (s : Store),
      ∀ e ∈ bodyEntries (get_businesses host la oa s), entryZipIsInt e = true) ∧
    (∀ (host : String) (bid : Int) (data : BusinessBody) (s : Store),
      (edit_business host bid data s).1.status = 200 →
      responseZipIsInt (edit_business host bid data s).1 = true) ∧
    (∀ (host : String) (oid : Int) (s : Store),
      ∀ e ∈ arrElems (list_owner_businesses host oid s),
        entryZipIsStr e = true) := by
  refine ⟨?_, ?_, ?_, ?_, ?_⟩
  · intro host data s h
    rcases create_business_shape host data s with hs | ⟨s', hs⟩ | ⟨b, s', hs⟩
    · rw [hs] at h; simp at h
    · rw [hs] at h; simp at h
    · rw [hs]; exact responseZipIsInt_obj b 201 _
  · intro host bid s h
    cases hf : s.businesses.find? (fun b => b.id == bid) with
    | none =>
      unfold get_business_by_id at h
      rw [hf] at h
      simp at h
    | some b =>
      have hq : get_business_by_id host bid s =
          ⟨200, .obj (format_business_response b ++
            [("self", .str (rstripSlash host ++ "/businesses/" ++
              toString b.id))])⟩ := by
        unfold get_business_by_id
        rw [hf]
      rw [hq]
      exact responseZipIsInt_obj b 200 _
  · intro host la oa s e he
    cases hla : argInt la 3 with
    | none =>
      unfold get_businesses at he
      rw [hla] at he
      exact absurd he (List.not_mem_nil e)
    | some limit =>
      cases hoa : argInt oa 0 with
      | none =>
        unfold get_businesses at he
        rw [hla, hoa] at he
        exact absurd he (List.not_mem_nil e)
      | some offset =>
        by_cases hneg : limit < 0 ∨ offset < 0
        · rw [get_businesses_negative host la oa s limit offset hla hoa hneg] at he
          exact absurd he (List.not_mem_nil e)
        rcases not_or.mp hneg with ⟨h1, h2⟩
        rw [get_businesses_parsed host la oa s limit offset hla hoa
          (not_lt.mp h1) (not_lt.mp h2)] at he
        by_cases hlt : offset + limit < (s.businesses.length : Int)
        · rw [if_pos hlt] at he
          have he' : e ∈ ((s.businesses.drop offset.toNat).take limit.toNat).map
              (fun b => Value.obj (format_business_response b ++
                [("self", .str (host ++ "businesses/" ++ toString b.id))])) := he
          obtain ⟨b, _, rfl⟩ := List.mem_map.mp he'
          exact entryZipIsInt_formatted b _
        · rw [if_neg hlt] at he
          have he' : e ∈ ((s.businesses.drop offset.toNat).take limit.toNat).map
              (fun b => Value.obj (format_business_response b ++
                [("self", .str (host ++ "businesses/" ++ toString b.id))])) := he
          obtain ⟨b, _, rfl⟩ := List.mem_map.mp he'
          exact entryZipIsInt_formatted b _
  · intro host bid data s h
    rcases edit_business_shape host bid data s with hs | ⟨s', hs⟩ | ⟨b, s', hs⟩
    · rw [hs] at h; simp at h
    · rw [hs] at h; simp at h
    · rw [hs]; exact responseZipIsInt_obj b 200 _
  · intro host oid s e he
    have he' : e ∈ (s.businesses.filter (fun b => b.owner_id == oid)).map
        (fun b => Value.obj (rawBusinessDict b ++
          [("self", .str (rstripSlash host ++ "/businesses/" ++
            toString b.id))])) := he
    obtain ⟨b, _, rfl⟩ := List.mem_map.mp he'
    exact entryZipIsStr_raw b _

/-- C4 witness: concrete integer zip codes from the four formatted
endpoints on `storeFix`, and a string zip code from the owners listing. -/
theorem C4_zip_code_types_witness :
    responseZipIsInt (create_business hostX ⟨some 7, some "New Cafe",
      some "5 Pine", some "Salem", some "OR", some 97301⟩ storeFix).1 = true ∧
    responseZipIsInt (get_business_by_id hostX 1 storeFix) = true ∧
    entryZipIsInt (Value.obj (format_business_response bizFix ++
      [("self", .str (hostX ++ "businesses/" ++ toString bizFix.id))])) = true ∧
    responseZipIsInt (edit_business hostX 1 ⟨some 8, some "Renamed",
      some "9 Elm", some "Bend", some "OR", some 97701⟩ storeFix).1 = true ∧
    entryZipIsStr (Value.obj (rawBusinessDict bizFix ++
      [("self", .str (rstripSlash hostX ++ "/businesses/" ++
        toString bizFix.id))])) = true :=
  ⟨C4_zip_code_types.1 hostX ⟨some 7, some "New Cafe", some "5 Pine",
      some "Salem", some "OR", some 97301⟩ storeFix rfl,
   C4_zip_code_types.2.1 hostX 1 storeFix rfl,
   C4_zip_code_types.2.2.1 hostX none none storeFix _
     (List.mem_cons_self _ _),
   C4_zip_code_types.2.2.2.1 hostX 1 ⟨some 8, some "Renamed", some "9 Elm",
      some "Bend", some "OR", some 97701⟩ storeFix rfl,
   C4_zip_code_types.2.2.2.2 hostX 7 storeFix _ (List.mem_cons_self _ _)⟩
